import Mathlib

/-
Verification development for the STAC catalog construction code
(stac_structure.py and stac_products.py).  Identifiers and file names are
modelled as lists of characters; rasters, affine transforms and CRSs are
modelled as explicit structures; numeric raster data is modelled over the
rationals.
-/

/-- Character class [A-Z0-9-] used by the service-UID group of every
identifier regex in the source. -/
def isSvcChar (c : Char) : Bool :=
  ('A' ≤ c && c ≤ 'Z') || ('0' ≤ c && c ≤ '9') || c = '-'

/-- Character class for a decimal digit. -/
def isDigitCh (c : Char) : Bool :=
  '0' ≤ c && c ≤ '9'

/-- Value of a list of decimal digit characters, as int() computes it on an
all-digit string. -/
def digitsToNat (l : List Char) : Nat :=
  l.foldl (fun a c => a * 10 + (c.toNat - 48)) 0

/-- Decimal digit character for a value below ten. -/
def digitCh (n : Nat) : Char :=
  Char.ofNat (48 + n)

/-- Fuelled decimal rendering of a natural number (most significant digit
first). -/
def natToDigitsFuel : Nat → Nat → List Char
  | 0, _ => []
  | fuel + 1, n =>
    if n < 10 then [digitCh n]
    else natToDigitsFuel fuel (n / 10) ++ [digitCh (n % 10)]

/-- Decimal rendering of a natural number. -/
def natToDigits (n : Nat) : List Char :=
  natToDigitsFuel (n + 1) n

/-- Zero-padded decimal rendering to at least a given width, as produced by
the %Y %m %d %H %M %S strftime directives and by f-string 0-padding. -/
def padNum (w n : Nat) : List Char :=
  List.replicate (w - (natToDigits n).length) '0' ++ natToDigits n

example : natToDigits 2025 = ['2', '0', '2', '5'] := by decide
example : padNum 6 5 = ['0', '0', '0', '0', '0', '5'] := by decide
example : digitsToNat "000105".toList = 105 := by decide
example : isSvcChar '_' = false := by decide

/-! ### Identifier grammars of stac_structure.py (lines 136-181)

The source uses anchored regular expressions.  In each of them the
service-UID group ranges over [A-Z0-9-]+ (which excludes the underscore)
and the remaining groups have a fixed total length, so an anchored match
forces the separating underscore to a fixed distance from the end of the
string; the match, when it exists, is therefore unique and the matchers
below compute it directly.
-/

/-- Timestamp group of the ad-hoc regex: \d{8}T\d{6}d\d{3}
(19 characters: an 8-digit date, a literal T, 6 digits, a literal d and a
3-digit millisecond field). -/
def adhocTsOk (ts : List Char) : Bool :=
  ts.length = 19 &&
  (ts.take 8).all isDigitCh &&
  ts[8]? = some 'T' &&
  ((ts.drop 9).take 6).all isDigitCh &&
  ts[15]? = some 'd' &&
  (ts.drop 16).all isDigitCh

/-- Matcher for _ADHOC_RE = ^([A-Z0-9-]+)_(\d{8}T\d{6}d\d{3})$ returning
the (svc, ts) groups.  The timestamp group has fixed length 19 and neither
group can contain an underscore, so the separator sits exactly 20
characters before the end. -/
def adhocMatch (s : List Char) : Option (List Char × List Char) :=
  if 21 ≤ s.length ∧ s[s.length - 20]? = some '_'
      ∧ (s.take (s.length - 20)).all isSvcChar = true
      ∧ adhocTsOk (s.drop (s.length - 19)) = true then
    some (s.take (s.length - 20), s.drop (s.length - 19))
  else
    none

/-- Matcher for _SYSTEMATIC_DAY_RE = ^([A-Z0-9-]+)_(\d{8})$ returning the
(svc, date) groups.  The date group has fixed length 8, so the separator
sits exactly 9 characters before the end. -/
def systematicMatch (s : List Char) : Option (List Char × List Char) :=
  if 10 ≤ s.length ∧ s[s.length - 9]? = some '_'
      ∧ (s.take (s.length - 9)).all isSvcChar = true
      ∧ (s.drop (s.length - 8)).all isDigitCh = true then
    some (s.take (s.length - 9), s.drop (s.length - 8))
  else
    none

/-- The namespace the LS-DF validator requires as a leading part of the
service UID; it coincides with the "LS-DF" collection id key of
COLLECTIONS. -/
def lsdfId : List Char := "LS-DF".toList

/-- _id_ok_for_ls_df of stac_structure.py (lines 153-168): an id is
accepted when it matches the ad-hoc regex or the systematic regex and the
matched service UID starts with "LS-DF"; the empty id is rejected first. -/
def _id_ok_for_ls_df (item_id : List Char) : Bool :=
  if item_id.isEmpty then false
  else
    (match adhocMatch item_id with
     | some (svc, _) => lsdfId.isPrefixOf svc
     | none => false) ||
    (match systematicMatch item_id with
     | some (svc, _) => lsdfId.isPrefixOf svc
     | none => false)

example : _id_ok_for_ls_df "LS-DF-SB-S1_20251217T144338d086".toList = true := by decide
example : _id_ok_for_ls_df "LS-DF-SB-S1_20250101".toList = true := by decide
example : _id_ok_for_ls_df "LS-UA-LST-BA1_20250101".toList = false := by decide
example : _id_ok_for_ls_df "LS-DF-SB-S1_20251217T144338d086_000001".toList = false := by decide
example : _id_ok_for_ls_df "".toList = false := by decide

/-! ### Timestamp parsing (stac_structure.py lines 119-133) -/

/-- A broken-down UTC datetime as produced by datetime parsing. -/
structure DateTimeQ where
  year : Nat
  month : Nat
  day : Nat
  hour : Nat
  minute : Nat
  second : Nat
  microsecond : Nat
deriving DecidableEq

/-- Gregorian leap-year rule used by the calendar validation of strptime. -/
def isLeap (y : Nat) : Bool :=
  (y % 4 = 0 && ¬ y % 100 = 0) || y % 400 = 0

/-- Number of days of a month, used by the calendar validation of
strptime. -/
def daysInMonth (y m : Nat) : Nat :=
  if m = 2 then (if isLeap y then 29 else 28)
  else if m = 4 ∨ m = 6 ∨ m = 9 ∨ m = 11 then 30
  else 31

/-- strptime with format %Y%m%dT%H%M%S on a 15-character token: four digit
year, two digit month, day, hour, minute and second around a literal T,
with calendar and range validation; none models the ValueError raised on a
malformed token. -/
def strptimeYmdTHMS (s : List Char) : Option DateTimeQ :=
  if s.length = 15 ∧ (s.take 8).all isDigitCh = true ∧ s[8]? = some 'T'
      ∧ (s.drop 9).all isDigitCh = true then
    let y := digitsToNat (s.take 4)
    let mo := digitsToNat ((s.drop 4).take 2)
    let d := digitsToNat ((s.drop 6).take 2)
    let h := digitsToNat ((s.drop 9).take 2)
    let mi := digitsToNat ((s.drop 11).take 2)
    let sec := digitsToNat ((s.drop 13).take 2)
    if 1 ≤ y ∧ 1 ≤ mo ∧ mo ≤ 12 ∧ 1 ≤ d ∧ d ≤ daysInMonth y mo
        ∧ h ≤ 23 ∧ mi ≤ 59 ∧ sec ≤ 59 then
      some ⟨y, mo, d, h, mi, sec, 0⟩
    else
      none
  else
    none

deriving instance DecidableEq for Except

/-- Exceptions that the modelled fragments of the source can raise. -/
inductive StacError where
  | attributeError
  | valueError (msg : List Char)
deriving DecidableEq

/-- parse_hub_ts of stac_structure.py (lines 119-133): strip the token,
require 19 characters with a literal d at index 15, strptime the first 15
characters, read the last 3 as milliseconds and store them as
microseconds. -/
def parse_hub_ts (ts0 : List Char) : Except StacError DateTimeQ :=
  let ts := (ts0.dropWhile Char.isWhitespace).reverse.dropWhile Char.isWhitespace |>.reverse
  if ts.length = 19 ∧ ts[15]? = some 'd' then
    match strptimeYmdTHMS (ts.take 15) with
    | some dt =>
      if (ts.drop 16).all isDigitCh ∧ ¬ ts.drop 16 = [] then
        .ok { dt with microsecond := digitsToNat (ts.drop 16) * 1000 }
      else
        .error (.valueError "invalid literal for int".toList)
    | none => .error (.valueError "time data does not match format".toList)
  else
    .error (.valueError "Not a valid Hub timestamp".toList)

example : parse_hub_ts "20251217T144338d086".toList =
    .ok ⟨2025, 12, 17, 14, 43, 38, 86000⟩ := by decide
example : parse_hub_ts "20251217T144338086".toList =
    .error (.valueError "Not a valid Hub timestamp".toList) := by decide

/-! ### COLLECTIONS registry (stac_structure.py lines 34-97) -/

/-- The static collection registry: collection id, description and the
allowed item ids with their descriptions. -/
def COLLECTIONS : List (List Char × String × List (List Char × String)) :=
  [ ("FS-FM".toList, "Forest Types Mapping",
      [ ("FS-FM-FC-A".toList, "Forest Types Maps"),
        ("FS-FM-FC-B".toList, "Forest Types Maps"),
        ("FS-FM-TC".toList, "Tree Cover Density Maps"),
        ("FS-FM-FF-S1".toList, "Forest Types Maps / Forest Fuel Maps"),
        ("FS-FM-FF-S2".toList, "Forest Types Maps / Forest Fuel Maps"),
        ("FS-FM-FF-A2".toList, "Forest Types Maps / Forest Fuel Maps"),
        ("FS-FM-FF-A1".toList, "Forest Types Maps / Forest Fuel Maps") ]),
    ("FS-FT".toList, "Fuel Type Mapping",
      [ ("FS-FT-FT-00".toList, "Fuel Type Maps") ]),
    ("FS-HA".toList, "Forest and NATURA Areas Health Assessment",
      [ ("FS-HA-HT-B-A2".toList, "FNA Health trends") ]),
    ("FS-BI".toList, "Biodiversity Mapping of Forest and NATURA Areas",
      [ ("FS-BI-SI".toList, "Biodiversity Indices"),
        ("FS-BI-HS".toList, "Biodiversity Hot Spots Detection"),
        ("FS-BI-BT".toList, "Biodiversity Trends"),
        ("FS-BI-TM".toList, "Biodiversity Trend Maps in Disturbed Ecosystems") ]),
    ("FS-TM".toList, "Forest and NATURA Areas Threat Monitoring",
      [ ("FS-TM-TM-B-A2".toList, "FNA Threat monitoring") ]),
    ("LS-LC".toList, "Land Use/Land Cover",
      [ ("LS-LC-CM-A".toList, "Land Cover Classification for the period 2015-2024"),
        ("LS-LC-CM-B".toList, "Land Cover Classification for the period 2025+"),
        ("LS-LC-CA-A".toList, "Change Analysis for the period 2015-2024"),
        ("LS-LC-CA-B".toList, "Change Analysis for the period 2025+") ]),
    ("LS-DF".toList, "Deformation Monitoring",
      [ ("LS-DF-PS-S1".toList, "PSI displacement maps for Greece"),
        ("LS-DF-SB-S1".toList, "SBAS (Distributed Scatterers) displacement maps for Greece"),
        ("LS-DF-IT-S1".toList, "Co-seismic InSAR products for Greece"),
        ("LS-DF-LS-00".toList, "On-demand LANDSLIDE tracking") ]),
    ("LS-UA".toList, "Urban Analytics Services",
      [ ("LS-UA-LST-BA1".toList, "Land Surface Temperature Map (200m)"),
        ("LS-UA-AT-BA1".toList, "Air Temperature Map (200m)"),
        ("LS-UA-SUHI-BA1".toList, "SUHI/UHI Map (200m)"),
        ("LS-UA-UPHI-B".toList, "Urban and Public Health"),
        ("LS-UA-AQM-B".toList, "Urban Air Quality AI Model training"),
        ("LS-UA-AQ-B".toList, "Urban Air Quality") ]) ]

/-- COLLECTIONS.get: look a collection up by its id. -/
def collectionLookup (cid : List Char) :
    Option (String × List (List Char × String)) :=
  (COLLECTIONS.find? (fun e => e.1 = cid)).map (fun e => e.2)

/-! ### Head of create_stac_structure (stac_structure.py lines 438-474) -/

/-- Lines 443-452 of create_stac_structure.  m := _ADHOC_RE.match(item_id).
The try block evaluates m.group("svc", "ts", "ctr").  When the id does not
match, m is None and dereferencing it raises AttributeError, the bare
except catches it, and the except branch dereferences m again, so the
AttributeError propagates.  When the id matches, the regex has no group
named ctr, so the try block raises IndexError, and the except branch reads
the svc and ts groups, sets the counter to 1 and parses the hub
timestamp. -/
def create_stac_prologue (item_id : List Char) :
    Except StacError (List Char × List Char × Nat × DateTimeQ) :=
  match adhocMatch item_id with
  | none => .error .attributeError
  | some (svc, ts) =>
    match parse_hub_ts ts with
    | .ok t => .ok (svc, ts, 1, t)
    | .error e => .error e

/-- Lines 454-469 of create_stac_structure: unknown collection ids raise
ValueError; an item id that is not an item key of the collection must pass
_id_ok_for_ls_df when the collection is LS-DF, and must merely be
non-empty otherwise. -/
def create_stac_validate (collection_id item_id : List Char) :
    Except StacError Unit :=
  match collectionLookup collection_id with
  | none => .error (.valueError "Unknown collection id".toList)
  | some info =>
    if (info.2.find? (fun e => e.1 = item_id)).isSome then .ok ()
    else if collection_id = "LS-DF".toList then
      if _id_ok_for_ls_df item_id then .ok ()
      else .error (.valueError "Item id is not valid for collection".toList)
    else if item_id.isEmpty then
      .error (.valueError "Item id is not valid for collection".toList)
    else .ok ()

/-- The asset directory created at lines 472-474, the first filesystem
write of create_stac_structure. -/
def assetDirOf (collection_id item_id : List Char) : List Char :=
  "assets/".toList ++ collection_id ++ "/".toList ++ item_id

/-- Lines 438-474 of create_stac_structure in order: the regex prologue
runs first, then collection and item validation, and only then is the
asset directory created; the returned path is the directory that mkdir
creates on the success path, so an error value means no directory or file
was touched. -/
def create_stac_head (collection_id item_id : List Char) :
    Except StacError ((List Char × List Char × Nat × DateTimeQ) × List Char) :=
  match create_stac_prologue item_id with
  | .error e => .error e
  | .ok pro =>
    match create_stac_validate collection_id item_id with
    | .error e => .error e
    | .ok _ => .ok (pro, assetDirOf collection_id item_id)

example : create_stac_head "LS-DF".toList "LS-DF-SB-S1_20250101".toList =
    .error .attributeError := by decide
example : (create_stac_head "LS-DF".toList "LS-DF-SB-S1_20251217T144338d086".toList).isOk = true := by decide

/-! ### Georeference reconciliation and reprojection
(stac_structure.py lines 375-427 and 499-592) -/

/-- A 2-d affine transform with the six rasterio coefficients. -/
structure Affine where
  a : ℚ
  b : ℚ
  c : ℚ
  d : ℚ
  e : ℚ
  f : ℚ
deriving DecidableEq

/-- The rasterio identity transform. -/
def identityAffine : Affine := ⟨1, 0, 0, 0, 1, 0⟩

/-- src.transform.is_identity. -/
def Affine.isIdentity (t : Affine) : Bool := t = identityAffine

/-- A coordinate reference system: either one with an EPSG code, or one
whose to_epsg() lookup yields nothing. -/
inductive CRS where
  | epsg (code : Nat)
  | noEpsg (wkt : String)
deriving DecidableEq

/-- crs.to_epsg(). -/
def CRS.toEpsg : CRS → Option Nat
  | .epsg code => some code
  | .noEpsg _ => none

/-- The metadata of one on-disk raster that the per-input loop of
create_stac_structure inspects: the destination path, the CRS (none when
the file has no CRS), the affine transform (the identity when the file has
none) and the pixel dimensions. -/
structure Raster where
  name : String
  crs : Option CRS
  transform : Affine
  width : Nat
  height : Nat
deriving DecidableEq

/-- The three reference variables of create_stac_structure (lines
499-502): ref_transform, ref_crs and ref_size, all initially None. -/
structure GeoState where
  refTransform : Option Affine
  refCrs : Option CRS
  refSize : Option (Nat × Nat)
deriving DecidableEq

/-- The initial reference state of one item construction. -/
def initState : GeoState := ⟨none, none, none⟩

/-- The fatal georeferencing errors of the per-input loop.  sizeMismatch
carries the asset path, the expected reference size and the actual size
(line 532); noGeoref carries only the asset path (line 539). -/
inductive RasterError where
  | sizeMismatch (asset : String) (expected got : Nat × Nat)
  | noGeoref (asset : String)
deriving DecidableEq

/-- True when the error payload includes the expected pixel size. -/
def RasterError.mentionsExpectedSize : RasterError → Bool
  | .sizeMismatch _ _ _ => true
  | .noGeoref _ => false

/-- _apply_georef_via_vrt (lines 375-427): burn the reference transform
and CRS into the file through a VRT and re-encode it; pixels and
dimensions are unchanged. -/
def _apply_georef_via_vrt (r : Raster) (t : Affine) (c : CRS) : Raster :=
  { r with transform := t, crs := some c }

/-- Lines 516-535 of the per-input loop: when CRS or transform is
missing, inherit from the reference if one is fully recorded and the pixel
sizes agree, raise a size-mismatch error if one is recorded with a
different pixel size, and leave the raster alone otherwise. -/
def inheritGeoref (st : GeoState) (r : Raster) : Except RasterError Raster :=
  if r.crs.isSome && ! r.transform.isIdentity then .ok r
  else
    match st.refTransform, st.refCrs, st.refSize with
    | some t, some c, some sz =>
      if (r.width, r.height) = sz then .ok (_apply_georef_via_vrt r t c)
      else .error (.sizeMismatch r.name sz (r.width, r.height))
    | _, _, _ => .ok r

/-- Lines 544-548 of the per-input loop: record the raster as the
reference when none was recorded yet and georeferencing is present. -/
def recordRef (st : GeoState) (r2 : Raster) : GeoState :=
  if st.refTransform.isNone && r2.crs.isSome && ! r2.transform.isIdentity then
    GeoState.mk (some r2.transform) r2.crs (some (r2.width, r2.height))
  else st

/-- Lines 508-548 of the per-input loop: inherit missing georeferencing,
enforce that georeferencing is now present (lines 537-542), and record the
first good raster as the reference. -/
def reconcileRaster (st : GeoState) (r : Raster) :
    Except RasterError (GeoState × Raster) :=
  match inheritGeoref st r with
  | .error err => .error err
  | .ok r2 =>
    if ! (r2.crs.isSome && ! r2.transform.isIdentity) then
      .error (.noGeoref r2.name)
    else
      .ok (recordRef st r2, r2)

/-- Lines 550-590 of the per-input loop: when the current CRS has no EPSG
code or an EPSG code other than 2100, warp the file to EPSG:2100 and
re-encode it (modelled by the warp argument), and refresh the reference
from the reprojected file only when ref_size is still None. -/
def reprojectRaster (warp : Raster → Raster) (st : GeoState) (r : Raster) :
    GeoState × Raster :=
  let epsgCode := r.crs.bind CRS.toEpsg
  if epsgCode = some 2100 then (st, r)
  else
    let r2 := warp r
    let st2 :=
      if st.refSize.isNone then
        GeoState.mk (some r2.transform) r2.crs (some (r2.width, r2.height))
      else st
    (st2, r2)

/-- One iteration of the per-input loop: reconciliation then
reprojection. -/
def processRaster (warp : Raster → Raster) (st : GeoState) (r : Raster) :
    Except RasterError (GeoState × Raster) :=
  match reconcileRaster st r with
  | .error err => .error err
  | .ok (st2, r2) => .ok (reprojectRaster warp st2 r2)

/-- The whole per-input loop in expansion order, returning the final
reference state and the finalized rasters. -/
def processAll (warp : Raster → Raster) :
    GeoState → List Raster → Except RasterError (GeoState × List Raster)
  | st, [] => .ok (st, [])
  | st, r :: rs =>
    match processRaster warp st r with
    | .error err => .error err
    | .ok (st2, r2) =>
      match processAll warp st2 rs with
      | .error err => .error err
      | .ok (st3, rs2) => .ok (st3, r2 :: rs2)

/-! ### Bounding box, geometry and centroid
(stac_structure.py lines 606-636 and 661-664) -/

/-- A bounding box in the public display CRS: west, south, east, north. -/
structure BBox4 where
  minx : ℚ
  miny : ℚ
  maxx : ℚ
  maxy : ℚ
deriving DecidableEq

/-- One folding step of the bbox union (lines 607-620): the first asset
seeds the box, every later asset contributes per-axis min of mins and max
of maxes. -/
def bboxUnionStep (acc : Option BBox4) (wb : BBox4) : Option BBox4 :=
  match acc with
  | none => some wb
  | some bb =>
    some ⟨min bb.minx wb.minx, min bb.miny wb.miny,
          max bb.maxx wb.maxx, max bb.maxy wb.maxy⟩

/-- The item bbox as the running union over the finalized assets, started
from None. -/
def bboxUnion (bs : List BBox4) : Option BBox4 :=
  bs.foldl bboxUnionStep none

/-- The item geometry (lines 625-636): the closed axis-aligned polygon of
the union box, as (longitude, latitude) pairs. -/
def geometryCoords (bb : BBox4) : List (ℚ × ℚ) :=
  [ (bb.minx, bb.miny), (bb.minx, bb.maxy), (bb.maxx, bb.maxy),
    (bb.maxx, bb.miny), (bb.minx, bb.miny) ]

/-- proj:centroid (lines 661-664): latitude and longitude midpoints of the
bbox. -/
def projCentroid (bb : BBox4) : ℚ × ℚ :=
  ((bb.miny + bb.maxy) / 2, (bb.minx + bb.maxx) / 2)

/-! ### Thumbnail generation (stac_structure.py lines 325-372)

Bands are modelled as flat lists of pixel values; every per-band numpy
operation of the source is elementwise, so the row structure carries no
information and the pixel count stands for the shape. -/

/-- Insertion into a sorted list, ascending. -/
def insertSorted (x : ℚ) : List ℚ → List ℚ
  | [] => [x]
  | y :: ys => if x ≤ y then x :: y :: ys else y :: insertSorted x ys

/-- Ascending sort, as np.percentile performs internally. -/
def sortQ (l : List ℚ) : List ℚ := l.foldr insertSorted []

/-- np.percentile with the default linear interpolation: index
q / 100 * (n - 1) into the sorted data, interpolating between the two
neighbouring values. -/
def percentileQ (xs : List ℚ) (q : ℚ) : ℚ :=
  let srt := sortQ xs
  let n := srt.length
  if n = 0 then 0
  else
    let r := q / 100 * ((n : ℚ) - 1)
    let i := (⌊r⌋).toNat
    let lo := srt.getD i 0
    let hi := srt.getD (i + 1) lo
    lo + (r - (⌊r⌋ : ℚ)) * (hi - lo)

/-- np.clip to the closed interval [lo, hi]. -/
def clipQ (x lo hi : ℚ) : ℚ := max lo (min x hi)

/-- The float-to-uint8 cast (truncation of a value already clamped into
[0, 255]). -/
def toUint8 (x : ℚ) : Nat := (⌊x⌋).toNat

/-- Lines 345-365 applied to one band: mask the nodata pixels, degrade to
an all-zero band when no pixel is unmasked, otherwise stretch the
2nd..98th percentile range linearly to 0..255, clamp, and zero the masked
pixels. -/
def processBand (nodata : Option ℚ) (band : List ℚ) : List Nat :=
  let masked : ℚ → Bool := fun x =>
    match nodata with
    | some nd => x = nd
    | none => false
  let valid := band.filter (fun x => ! masked x)
  if valid.isEmpty then band.map (fun _ => 0)
  else
    let vmin := percentileQ valid 2
    let vmax0 := percentileQ valid 98
    let vmax := if vmax0 ≤ vmin then vmin + 1 else vmax0
    band.map (fun x =>
      if masked x then 0
      else toUint8 ((clipQ x vmin vmax - vmin) / (vmax - vmin) * 255))

/-- Lines 334-342: band-count handling.  No band is a fatal error; one
band is replicated to three; three or more keep the first three; exactly
two are padded with a duplicate of the first. -/
def selectBands (data : List (List ℚ)) :
    Except String (List ℚ × List ℚ × List ℚ) :=
  match data with
  | [] => .error "No bands found to build thumbnail"
  | [b] => .ok (b, b, b)
  | [b1, b2] => .ok (b1, b2, b1)
  | b1 :: b2 :: b3 :: _ => .ok (b1, b2, b3)

/-- _write_thumbnail_from_raster (lines 325-372) up to the written pixels:
select three bands, normalize each, stack them into an interleaved image
and resize it to the requested square size.  The resize argument models
the PIL resampling step. -/
def _write_thumbnail_from_raster
    (resize : Nat → List (Nat × Nat × Nat) → List (Nat × Nat × Nat))
    (size : Nat) (nodata : Option ℚ) (data : List (List ℚ)) :
    Except String (List (Nat × Nat × Nat)) :=
  match selectBands data with
  | .error e => .error e
  | .ok (b1, b2, b3) =>
    let o1 := processBand nodata b1
    let o2 := processBand nodata b2
    let o3 := processBand nodata b3
    let rgb := (o1.zip (o2.zip o3)).map (fun p => (p.1, p.2.1, p.2.2))
    .ok (resize size rgb)

/-! ### stac_products.py: counters and generated identifiers -/

/-- Timestamp group of ID_COUNTER_PATTERN: \d{8}T\d{6}\d{3}, 18 characters
with nine contiguous digits after the literal T. -/
def counterTsOk (ts : List Char) : Bool :=
  ts.length = 18 &&
  (ts.take 8).all isDigitCh &&
  ts[8]? = some 'T' &&
  (ts.drop 9).all isDigitCh

/-- Matcher for ID_COUNTER_PATTERN =
^([A-Z0-9-]+)_(\d{8}T\d{6}\d{3})_(\d{6})$ returning the (svc, ts, ctr)
groups.  The part after the service UID has fixed length 26 and the
service UID cannot contain an underscore, so the split is unique. -/
def idCounterMatch (s : List Char) :
    Option (List Char × List Char × List Char) :=
  if 27 ≤ s.length ∧ s[s.length - 26]? = some '_'
      ∧ (s.take (s.length - 26)).all isSvcChar = true
      ∧ counterTsOk ((s.drop (s.length - 25)).take 18) = true
      ∧ s[s.length - 7]? = some '_'
      ∧ (s.drop (s.length - 6)).all isDigitCh = true then
    some (s.take (s.length - 26), (s.drop (s.length - 25)).take 18,
          s.drop (s.length - 6))
  else
    none

/-- Index, counted from the end of the list, of the last dot (the first
dot of the reversed list). -/
def lastDotFromEnd : List Char → Option Nat
  | [] => none
  | c :: cs => if c = '.' then some 0 else (lastDotFromEnd cs).map Nat.succ

/-- os.path.splitext on a basename: split at the last dot unless every
character before it is itself a dot. -/
def splitext (p : List Char) : List Char × List Char :=
  match lastDotFromEnd p.reverse with
  | none => (p, [])
  | some k =>
    let i := p.length - 1 - k
    if (p.take i).any (fun c => ! c = '.') then (p.take i, p.drop i)
    else (p, [])

example : splitext "LS_a.json".toList = ("LS_a".toList, ".json".toList) := by decide
example : splitext "notes".toList = ("notes".toList, []) := by decide
example : splitext ".bashrc".toList = (".bashrc".toList, []) := by decide

/-- The extension filter of next_counter_for_service: ext.lower() must be
.json or .geojson. -/
def extIsJson (ext : List Char) : Bool :=
  ext.map Char.toLower = ".json".toList || ext.map Char.toLower = ".geojson".toList

/-- Body of the file loop of next_counter_for_service (lines 83-98): skip
names whose extension is not .json or .geojson, match the stem against
ID_COUNTER_PATTERN, require the service UID group to equal the requested
one, and keep the running maximum of the counter group.  The int()
conversion of a matched 6-digit group never fails, so no name raises. -/
def fileCounterStep (service_uid : List Char) (acc : Nat)
    (name : List Char) : Nat :=
  let be := splitext name
  if extIsJson be.2 then
    match idCounterMatch be.1 with
    | some (svc, _, ctr) =>
      if svc = service_uid then max acc (digitsToNat ctr) else acc
    | none => acc
  else acc

/-- Body of the directory loop of next_counter_for_service (lines
100-109). -/
def dirCounterStep (service_uid : List Char) (acc : Nat)
    (d : List Char) : Nat :=
  match idCounterMatch d with
  | some (svc, _, ctr) =>
    if svc = service_uid then max acc (digitsToNat ctr) else acc
  | none => acc

/-- next_counter_for_service of stac_products.py (lines 75-110): scan the
basenames of the files beneath the root for JSON documents whose stem
matches ID_COUNTER_PATTERN with the requested service UID, then the
directory names likewise, keep the running maximum of the counter groups
and return it plus one. -/
def next_counter_for_service (files dirs : List (List Char))
    (service_uid : List Char) : Nat :=
  let m1 := files.foldl (fileCounterStep service_uid) 0
  let m2 := dirs.foldl (dirCounterStep service_uid) m1
  m2 + 1

/-- format_counter of stac_products.py (lines 113-114). -/
def format_counter (n : Nat) : List Char := padNum 6 n

/-- utc_timestamp_millis of stac_products.py (lines 56-72): strftime
%Y%m%dT%H%M%S of the datetime followed by a literal d and the zero-padded
milliseconds (microseconds divided by 1000). -/
def utc_timestamp_millis (t : DateTimeQ) : List Char :=
  padNum 4 t.year ++ (padNum 2 t.month ++ (padNum 2 t.day ++
    ('T' :: (padNum 2 t.hour ++ (padNum 2 t.minute ++ (padNum 2 t.second ++
      ('d' :: padNum 3 (t.microsecond / 1000))))))))

example : utc_timestamp_millis ⟨2025, 12, 17, 14, 43, 38, 86000⟩ =
    "20251217T144338d086".toList := by decide
example : next_counter_for_service [] [] "LS-DF-SB-S1".toList = 1 := by decide
example : next_counter_for_service
    [ "LS-DF-SB-S1_20250101T000000000_000001.json".toList ] []
    "LS-DF-SB-S1".toList = 2 := by decide

/-! ### Helper lemmas about the identifier matchers -/

theorem isDigitCh_ne_underscore {c : Char} (h : isDigitCh c = true) : c ≠ '_' := by
  intro he; subst he; exact absurd h (by decide)

theorem isSvcChar_not_underscore (h : isSvcChar '_' = true) : False := by
  exact absurd h (by decide)

theorem adhocTsOk_parts {ts : List Char} (h : adhocTsOk ts = true) :
    ts.length = 19 ∧ (ts.take 8).all isDigitCh = true ∧ ts[8]? = some 'T'
      ∧ ((ts.drop 9).take 6).all isDigitCh = true ∧ ts[15]? = some 'd'
      ∧ (ts.drop 16).all isDigitCh = true := by
  simp only [adhocTsOk, Bool.and_eq_true, decide_eq_true_eq] at h
  obtain ⟨⟨⟨⟨⟨h1, h2⟩, h3⟩, h4⟩, h5⟩, h6⟩ := h
  exact ⟨h1, h2, h3, h4, h5, h6⟩

theorem adhocTs_digit_at6 {ts : List Char} (h : adhocTsOk ts = true) :
    ∃ c, ts[6]? = some c ∧ isDigitCh c = true := by
  obtain ⟨hlen, h8, -, -, -, -⟩ := adhocTsOk_parts h
  have h6 : (6 : Nat) < ts.length := by omega
  refine ⟨ts[6], List.getElem?_eq_getElem h6, ?_⟩
  have hmem : ts[6] ∈ ts.take 8 := by
    apply List.getElem?_mem (n := 6)
    rw [List.getElem?_take_of_lt (by omega)]
    exact List.getElem?_eq_getElem h6
  exact List.all_eq_true.mp h8 _ hmem

theorem adhocTs_digit_at17 {ts : List Char} (h : adhocTsOk ts = true) :
    ∃ c, ts[17]? = some c ∧ isDigitCh c = true := by
  obtain ⟨hlen, -, -, -, -, h16⟩ := adhocTsOk_parts h
  have h17 : (17 : Nat) < ts.length := by omega
  refine ⟨ts[17], List.getElem?_eq_getElem h17, ?_⟩
  have hmem : ts[17] ∈ ts.drop 16 := by
    apply List.getElem?_mem (n := 1)
    rw [List.getElem?_drop]
    exact List.getElem?_eq_getElem h17
  exact List.all_eq_true.mp h16 _ hmem

theorem take_append_cons (l r : List Char) (c : Char) :
    (l ++ c :: r).take l.length = l :=
  List.take_left l (c :: r)

theorem drop_append_cons (l r : List Char) (c : Char) :
    (l ++ c :: r).drop (l.length + 1) = r := by
  have hl : (l ++ [c]).length = l.length + 1 := by simp
  rw [List.append_cons, ← hl, List.drop_left]

theorem getElem?_append_cons_self (l r : List Char) (c : Char) :
    (l ++ c :: r)[l.length]? = some c := by
  rw [List.getElem?_append_right (Nat.le_refl _)]
  simp

theorem getElem?_append_cons_right (l r : List Char) (c : Char) (n : Nat)
    (h : l.length + 1 ≤ n) :
    (l ++ c :: r)[n]? = r[n - (l.length + 1)]? := by
  have hl : (l ++ [c]).length = l.length + 1 := by simp
  rw [List.append_cons, List.getElem?_append_right (by rw [hl]; exact h), hl]

theorem adhocMatch_append {svc ts : List Char} (hne : svc ≠ [])
    (hsvc : svc.all isSvcChar = true) (hts : adhocTsOk ts = true) :
    adhocMatch (svc ++ '_' :: ts) = some (svc, ts) := by
  obtain ⟨hlen, -⟩ := adhocTsOk_parts hts
  have hpos : 1 ≤ svc.length := by
    cases svc with
    | nil => exact absurd rfl hne
    | cons a l => simp
  have hsl : (svc ++ '_' :: ts).length = svc.length + 20 := by simp [hlen]
  have h20 : (svc ++ '_' :: ts).length - 20 = svc.length := by omega
  have h19 : (svc ++ '_' :: ts).length - 19 = svc.length + 1 := by omega
  unfold adhocMatch
  rw [h20, h19, take_append_cons, drop_append_cons, if_pos]
  exact ⟨by omega, getElem?_append_cons_self .., hsvc, hts⟩

theorem systematicMatch_append {svc d : List Char} (hne : svc ≠ [])
    (hsvc : svc.all isSvcChar = true) (hlen : d.length = 8)
    (hd : d.all isDigitCh = true) :
    systematicMatch (svc ++ '_' :: d) = some (svc, d) := by
  have hpos : 1 ≤ svc.length := by
    cases svc with
    | nil => exact absurd rfl hne
    | cons a l => simp
  have hsl : (svc ++ '_' :: d).length = svc.length + 9 := by simp [hlen]
  have h9 : (svc ++ '_' :: d).length - 9 = svc.length := by omega
  have h8 : (svc ++ '_' :: d).length - 8 = svc.length + 1 := by omega
  unfold systematicMatch
  rw [h9, h8, take_append_cons, drop_append_cons, if_pos]
  exact ⟨by omega, getElem?_append_cons_self .., hsvc, hd⟩

theorem adhocMatch_eq_some {s svc ts : List Char}
    (h : adhocMatch s = some (svc, ts)) :
    s = svc ++ '_' :: ts ∧ svc ≠ [] ∧ svc.all isSvcChar = true
      ∧ adhocTsOk ts = true := by
  unfold adhocMatch at h
  split at h
  case isTrue hc =>
    obtain ⟨h21, hund, hall, hts⟩ := hc
    injection h with h'
    have hsvc := congrArg Prod.fst h'
    have hts' := congrArg Prod.snd h'
    simp only [] at hsvc hts'
    subst hsvc; subst hts'
    have hlt : s.length - 20 < s.length := by omega
    have hstep : s.length - 20 + 1 = s.length - 19 := by omega
    have hdrop : s.drop (s.length - 20) = '_' :: s.drop (s.length - 19) := by
      rw [List.drop_eq_getElem_cons hlt]
      have hv : s[s.length - 20] = '_' := by
        have := List.getElem?_eq_getElem hlt
        rw [this] at hund
        exact Option.some.inj hund
      rw [hv, hstep]
    refine ⟨?_, ?_, hall, hts⟩
    · conv_lhs => rw [← List.take_append_drop (s.length - 20) s]
      rw [hdrop]
    · have hlen20 : (s.take (s.length - 20)).length = s.length - 20 := by
        rw [List.length_take]; omega
      intro hnil
      rw [hnil] at hlen20
      simp at hlen20
      omega
  case isFalse => exact absurd h (by simp)

theorem systematicMatch_eq_some {s svc d : List Char}
    (h : systematicMatch s = some (svc, d)) :
    s = svc ++ '_' :: d ∧ svc ≠ [] ∧ svc.all isSvcChar = true
      ∧ d.length = 8 ∧ d.all isDigitCh = true := by
  unfold systematicMatch at h
  split at h
  case isTrue hc =>
    obtain ⟨h10, hund, hall, hd⟩ := hc
    injection h with h'
    have hsvc := congrArg Prod.fst h'
    have hd' := congrArg Prod.snd h'
    simp only [] at hsvc hd'
    subst hsvc; subst hd'
    have hlt : s.length - 9 < s.length := by omega
    have hstep : s.length - 9 + 1 = s.length - 8 := by omega
    have hdrop : s.drop (s.length - 9) = '_' :: s.drop (s.length - 8) := by
      rw [List.drop_eq_getElem_cons hlt]
      have hv : s[s.length - 9] = '_' := by
        have := List.getElem?_eq_getElem hlt
        rw [this] at hund
        exact Option.some.inj hund
      rw [hv, hstep]
    refine ⟨?_, ?_, hall, ?_, hd⟩
    · conv_lhs => rw [← List.take_append_drop (s.length - 9) s]
      rw [hdrop]
    · have hlen9 : (s.take (s.length - 9)).length = s.length - 9 := by
        rw [List.length_take]; omega
      intro hnil
      rw [hnil] at hlen9
      simp at hlen9
      omega
    · rw [List.length_drop]
      omega
  case isFalse => exact absurd h (by simp)

theorem adhocMatch_none_sysform {svc d : List Char}
    (hsvc : svc.all isSvcChar = true) (hd : d.length = 8) :
    adhocMatch (svc ++ '_' :: d) = none := by
  have hsl : (svc ++ '_' :: d).length = svc.length + 9 := by simp [hd]
  unfold adhocMatch
  split
  case isTrue hc =>
    exfalso
    obtain ⟨h21, hund, -, -⟩ := hc
    have hlt : (svc ++ '_' :: d).length - 20 < svc.length := by omega
    rw [List.getElem?_append_left hlt] at hund
    exact isSvcChar_not_underscore
      (List.all_eq_true.mp hsvc _ (List.getElem?_mem hund))
  case isFalse => rfl

theorem adhocMatch_none_ctrform {svc ts ctr : List Char}
    (hts : adhocTsOk ts = true) (hctr : ctr.length = 6) :
    adhocMatch (svc ++ '_' :: (ts ++ '_' :: ctr)) = none := by
  obtain ⟨hlen, -⟩ := adhocTsOk_parts hts
  have hsl : (svc ++ '_' :: (ts ++ '_' :: ctr)).length = svc.length + 27 := by
    simp [hlen, hctr]
  unfold adhocMatch
  split
  case isTrue hc =>
    exfalso
    obtain ⟨h21, hund, -, -⟩ := hc
    obtain ⟨c, hc6, hdig⟩ := adhocTs_digit_at6 hts
    rw [getElem?_append_cons_right _ _ _ _ (by omega)] at hund
    have h6 : (svc ++ '_' :: (ts ++ '_' :: ctr)).length - 20 - (svc.length + 1) = 6 := by
      omega
    rw [h6, List.getElem?_append_left (by omega), hc6] at hund
    exact isDigitCh_ne_underscore hdig (Option.some.inj hund)
  case isFalse => rfl

theorem systematicMatch_none_ctrform {svc ts ctr : List Char}
    (hts : adhocTsOk ts = true) (hctr : ctr.length = 6) :
    systematicMatch (svc ++ '_' :: (ts ++ '_' :: ctr)) = none := by
  obtain ⟨hlen, -⟩ := adhocTsOk_parts hts
  have hsl : (svc ++ '_' :: (ts ++ '_' :: ctr)).length = svc.length + 27 := by
    simp [hlen, hctr]
  unfold systematicMatch
  split
  case isTrue hc =>
    exfalso
    obtain ⟨h10, hund, -, -⟩ := hc
    obtain ⟨c, hc17, hdig⟩ := adhocTs_digit_at17 hts
    rw [getElem?_append_cons_right _ _ _ _ (by omega)] at hund
    have h17 : (svc ++ '_' :: (ts ++ '_' :: ctr)).length - 9 - (svc.length + 1) = 17 := by
      omega
    rw [h17, List.getElem?_append_left (by omega), hc17] at hund
    exact isDigitCh_ne_underscore hdig (Option.some.inj hund)
  case isFalse => rfl

/-! ### Claim C1 -/

/-- Modelled from the spec wording of identifier validation: the id
matches the ad-hoc or the systematic grammar (as a language, via an
explicit decomposition) and the matched service UID starts with the LS-DF
namespace of the collection registry. -/
def validateSpecLsDf (s : List Char) : Prop :=
  ∃ svc, lsdfId <+: svc ∧
    ((∃ ts, s = svc ++ '_' :: ts ∧ svc ≠ [] ∧ svc.all isSvcChar = true
        ∧ adhocTsOk ts = true) ∨
     (∃ d, s = svc ++ '_' :: d ∧ svc ≠ [] ∧ svc.all isSvcChar = true
        ∧ d.length = 8 ∧ d.all isDigitCh = true))

/-- C1: for every item id, _id_ok_for_ls_df accepts it iff it matches one
of the two grammars (systematic SERVICE_UID_YYYYMMDD or ad-hoc
SERVICE_UID_timestamp) and its service UID carries the LS-DF namespace of
the collection; in particular the systematic id with the LS-UA service UID
fails validation and the one with the allowed LS-DF-SB-S1 service UID
passes. -/
theorem c1_validate_iff_grammar_and_allowlist :
    (∀ s : List Char, _id_ok_for_ls_df s = true ↔ validateSpecLsDf s)
    ∧ _id_ok_for_ls_df "LS-UA-LST-BA1_20250101".toList = false
    ∧ _id_ok_for_ls_df "LS-DF-SB-S1_20250101".toList = true := by
  refine ⟨?_, by decide, by decide⟩
  intro s
  constructor
  · intro h
    unfold _id_ok_for_ls_df at h
    split at h
    case isTrue => exact absurd h (by simp)
    case isFalse hne =>
      rw [Bool.or_eq_true] at h
      rcases h with h | h
      · rcases ha : adhocMatch s with _ | ⟨svc, ts⟩
        · rw [ha] at h; exact absurd h (by simp)
        · rw [ha] at h
          obtain ⟨hs, hne', hall, hts⟩ := adhocMatch_eq_some ha
          exact ⟨svc, List.isPrefixOf_iff_prefix.mp h,
            Or.inl ⟨ts, hs, hne', hall, hts⟩⟩
      · rcases hb : systematicMatch s with _ | ⟨svc, d⟩
        · rw [hb] at h; exact absurd h (by simp)
        · rw [hb] at h
          obtain ⟨hs, hne', hall, hlen, hd⟩ := systematicMatch_eq_some hb
          exact ⟨svc, List.isPrefixOf_iff_prefix.mp h,
            Or.inr ⟨d, hs, hne', hall, hlen, hd⟩⟩
  · rintro ⟨svc, hpre, hcase⟩
    have hpb : lsdfId.isPrefixOf svc = true := List.isPrefixOf_iff_prefix.mpr hpre
    rcases hcase with ⟨ts, hs, hne, hall, hts⟩ | ⟨d, hs, hne, hall, hlen, hd⟩
    · subst hs
      unfold _id_ok_for_ls_df
      rw [if_neg (by simp)]
      rw [Bool.or_eq_true]
      left
      rw [adhocMatch_append hne hall hts]
      exact hpb
    · subst hs
      unfold _id_ok_for_ls_df
      rw [if_neg (by simp)]
      rw [Bool.or_eq_true]
      right
      rw [systematicMatch_append hne hall hlen hd]
      exact hpb

/-! ### Claim C2 -/

/-- C2 counterexample: the service UID LS-DF-SB-S1 is allowed and the
timestamp token 20251217T144338d086 is well formed, yet validation accepts
the ad-hoc id only without the legacy 6-digit counter suffix and rejects
the same id carrying the suffix, refuting the claim that both forms
pass. -/
theorem c2_counterexample :
    adhocTsOk "20251217T144338d086".toList = true
    ∧ ("LS-DF-SB-S1".toList).all isSvcChar = true
    ∧ lsdfId.isPrefixOf "LS-DF-SB-S1".toList = true
    ∧ _id_ok_for_ls_df "LS-DF-SB-S1_20251217T144338d086".toList = true
    ∧ _id_ok_for_ls_df "LS-DF-SB-S1_20251217T144338d086_000001".toList = false := by
  decide

/-- C2 amended: an ad-hoc id with a well-formed timestamp token and an
allowed service UID passes validation when it carries no legacy counter
suffix, and fails validation when the legacy 6-digit counter suffix is
appended, because the active ad-hoc regex has no counter group. -/
theorem c2_adhoc_counter_suffix (svc ts ctr : List Char)
    (hpre : lsdfId <+: svc) (hall : svc.all isSvcChar = true)
    (hts : adhocTsOk ts = true) (hctr : ctr.length = 6) :
    _id_ok_for_ls_df (svc ++ '_' :: ts) = true
    ∧ _id_ok_for_ls_df (svc ++ '_' :: (ts ++ '_' :: ctr)) = false := by
  have hne : svc ≠ [] := by
    intro h
    subst h
    have := List.prefix_nil.mp hpre
    exact absurd this (by decide)
  constructor
  · unfold _id_ok_for_ls_df
    rw [if_neg (by simp), Bool.or_eq_true]
    left
    rw [adhocMatch_append hne hall hts]
    exact List.isPrefixOf_iff_prefix.mpr hpre
  · unfold _id_ok_for_ls_df
    rw [if_neg (by simp), adhocMatch_none_ctrform hts hctr,
      systematicMatch_none_ctrform hts hctr]
    rfl

/-- C2 witness for the amended claim at the concrete LS-DF-SB-S1 id. -/
theorem c2_adhoc_counter_suffix_witness :
    _id_ok_for_ls_df ("LS-DF-SB-S1".toList ++ '_' :: "20251217T144338d086".toList) = true
    ∧ _id_ok_for_ls_df ("LS-DF-SB-S1".toList ++ '_' ::
        ("20251217T144338d086".toList ++ '_' :: "000001".toList)) = false :=
  c2_adhoc_counter_suffix "LS-DF-SB-S1".toList "20251217T144338d086".toList
    "000001".toList (by decide) (by decide) (by decide) (by decide)

/-! ### Claim C9 -/

/-- C9: every item id that the ad-hoc regex does not match makes
create_stac_structure raise the AttributeError from dereferencing the
failed match (raised in the try block and again in the bare except
branch), for every collection id, before the collection and item
validation and before the asset directory is created (create_stac_head
returns the mkdir path only on its success path); in particular
systematic ids and counter-suffixed ad-hoc ids never match the ad-hoc
regex. -/
theorem c9_nonmatching_id_raises (item_id collection_id : List Char)
    (h : adhocMatch item_id = none) :
    create_stac_head collection_id item_id = .error .attributeError
    ∧ (∀ svc d : List Char, svc.all isSvcChar = true → d.length = 8 →
        adhocMatch (svc ++ '_' :: d) = none)
    ∧ (∀ svc ts ctr : List Char, adhocTsOk ts = true → ctr.length = 6 →
        adhocMatch (svc ++ '_' :: (ts ++ '_' :: ctr)) = none) := by
  refine ⟨?_, ?_, ?_⟩
  · unfold create_stac_head create_stac_prologue
    rw [h]
  · intro svc d hsvc hd
    exact adhocMatch_none_sysform hsvc hd
  · intro svc ts ctr hts hctr
    exact adhocMatch_none_ctrform hts hctr

/-- C9 witness: the systematic id LS-DF-SB-S1_20250101 (accepted by the
validator itself) already fails in the prologue with the AttributeError,
for the LS-DF collection. -/
theorem c9_nonmatching_id_raises_witness :
    create_stac_head "LS-DF".toList "LS-DF-SB-S1_20250101".toList
      = .error .attributeError :=
  (c9_nonmatching_id_raises "LS-DF-SB-S1_20250101".toList "LS-DF".toList
    (by decide)).1

/-! ### Claim C3 -/

/-- C3: a raster missing CRS or transform is fixed exactly when a fully
recorded reference with a non-identity transform exists and its pixel
dimensions equal the rasters (conjunct one); reconciling a georeferenced
raster and then a same-size raster with neither CRS nor transform leaves
both carrying the references CRS and transform (conjunct two); and for
the canonical EPSG:2100 CRS the whole per-input loop, for every warp
implementation, yields both rasters with CRS A and transform T
(conjunct three). -/
theorem c3_georef_reconciliation :
    (∀ (st : GeoState) (r : Raster) (t : Affine) (c : CRS) (sz : Nat × Nat),
      (r.crs.isSome && ! r.transform.isIdentity) = false →
      st = GeoState.mk (some t) (some c) (some sz) →
      t.isIdentity = false →
      reconcileRaster st r =
        if (r.width, r.height) = sz then
          .ok (st, _apply_georef_via_vrt r t c)
        else
          .error (.sizeMismatch r.name sz (r.width, r.height)))
    ∧ (∀ (nm1 nm2 : String) (A : CRS) (T : Affine) (w h : Nat),
      T.isIdentity = false →
      reconcileRaster initState (Raster.mk nm1 (some A) T w h)
        = .ok (GeoState.mk (some T) (some A) (some (w, h)),
               Raster.mk nm1 (some A) T w h)
      ∧ reconcileRaster (GeoState.mk (some T) (some A) (some (w, h)))
          (Raster.mk nm2 none identityAffine w h)
        = .ok (GeoState.mk (some T) (some A) (some (w, h)),
               Raster.mk nm2 (some A) T w h))
    ∧ (∀ (warp : Raster → Raster) (nm1 nm2 : String) (T : Affine) (w h : Nat),
      T.isIdentity = false →
      processAll warp initState
        [Raster.mk nm1 (some (CRS.epsg 2100)) T w h,
         Raster.mk nm2 none identityAffine w h]
        = .ok (GeoState.mk (some T) (some (CRS.epsg 2100)) (some (w, h)),
               [Raster.mk nm1 (some (CRS.epsg 2100)) T w h,
                Raster.mk nm2 (some (CRS.epsg 2100)) T w h])) := by
  have hfix : ∀ (st : GeoState) (r : Raster) (t : Affine) (c : CRS) (sz : Nat × Nat),
      (r.crs.isSome && ! r.transform.isIdentity) = false →
      st = GeoState.mk (some t) (some c) (some sz) →
      t.isIdentity = false →
      reconcileRaster st r =
        if (r.width, r.height) = sz then
          .ok (st, _apply_georef_via_vrt r t c)
        else
          .error (.sizeMismatch r.name sz (r.width, r.height)) := by
    intro st r t c sz hmiss hst ht
    subst hst
    by_cases hsz : (r.width, r.height) = sz
    · rw [if_pos hsz]
      simp [reconcileRaster, inheritGeoref, recordRef, hmiss,
        _apply_georef_via_vrt, ht, hsz]
    · rw [if_neg hsz]
      simp [reconcileRaster, inheritGeoref, hmiss, hsz]
  have hpair : ∀ (nm1 nm2 : String) (A : CRS) (T : Affine) (w h : Nat),
      T.isIdentity = false →
      reconcileRaster initState (Raster.mk nm1 (some A) T w h)
        = .ok (GeoState.mk (some T) (some A) (some (w, h)),
               Raster.mk nm1 (some A) T w h)
      ∧ reconcileRaster (GeoState.mk (some T) (some A) (some (w, h)))
          (Raster.mk nm2 none identityAffine w h)
        = .ok (GeoState.mk (some T) (some A) (some (w, h)),
               Raster.mk nm2 (some A) T w h) := by
    intro nm1 nm2 A T w h hT
    constructor
    · simp [reconcileRaster, inheritGeoref, recordRef, initState, hT]
    · have := hfix (GeoState.mk (some T) (some A) (some (w, h)))
        (Raster.mk nm2 none identityAffine w h) T A (w, h) (by simp) rfl hT
      rw [this, if_pos rfl]
      rfl
  refine ⟨hfix, hpair, ?_⟩
  intro warp nm1 nm2 T w h hT
  obtain ⟨h1, h2⟩ := hpair nm1 nm2 (CRS.epsg 2100) T w h hT
  simp only [processAll, processRaster, h1, h2]
  simp [reprojectRaster, CRS.toEpsg, h1, h2]

/-- C3 witness: the two-raster pipeline at the canonical CRS with a
concrete transform. -/
theorem c3_georef_reconciliation_witness :
    processAll (fun r => r) initState
      [Raster.mk "a.tif" (some (CRS.epsg 2100)) (Affine.mk 2 0 0 0 (-2) 0) 3 3,
       Raster.mk "b.tif" none identityAffine 3 3]
      = .ok (GeoState.mk (some (Affine.mk 2 0 0 0 (-2) 0)) (some (CRS.epsg 2100))
               (some (3, 3)),
             [Raster.mk "a.tif" (some (CRS.epsg 2100)) (Affine.mk 2 0 0 0 (-2) 0) 3 3,
              Raster.mk "b.tif" (some (CRS.epsg 2100)) (Affine.mk 2 0 0 0 (-2) 0) 3 3]) :=
  c3_georef_reconciliation.2.2 (fun r => r) "a.tif" "b.tif"
    (Affine.mk 2 0 0 0 (-2) 0) 3 3 (by decide)

/-! ### Claim C4 -/

/-- C4 counterexample: the raster that establishes the reference is in
EPSG:4326 and is then reprojected (the modelled warp returns an EPSG:2100
raster with a different transform and size), yet the stored reference
keeps the pre-reprojection transform, CRS and size, refuting the claim
that the reference is recaptured from the post-reprojection geometry. -/
theorem c4_counterexample :
    processRaster
      (fun r => Raster.mk r.name (some (CRS.epsg 2100))
        (Affine.mk 30 0 500000 0 (-30) 4200000) 8 8)
      initState
      (Raster.mk "vel.tif" (some (CRS.epsg 4326)) (Affine.mk 1 0 0 0 (-1) 0) 10 10)
    = .ok (GeoState.mk (some (Affine.mk 1 0 0 0 (-1) 0)) (some (CRS.epsg 4326))
             (some (10, 10)),
           Raster.mk "vel.tif" (some (CRS.epsg 2100))
             (Affine.mk 30 0 500000 0 (-30) 4200000) 8 8)
    ∧ ¬ Affine.mk 1 0 0 0 (-1) 0 = Affine.mk 30 0 500000 0 (-30) 4200000 := by
  exact ⟨by decide, by decide⟩

/-- Reprojection never changes a reference state whose size field is
recorded: the recapture branch requires ref_size to be None. -/
theorem reproject_preserves_recorded_ref (warp : Raster → Raster)
    (st : GeoState) (r : Raster) (hsz : st.refSize.isSome = true) :
    (reprojectRaster warp st r).1 = st := by
  have hN : st.refSize.isNone = false := by
    rcases hx : st.refSize with _ | sz
    · rw [hx] at hsz; exact absurd hsz (by decide)
    · rfl
  simp only [reprojectRaster, hN]
  split
  · rfl
  · simp

/-- Unfolding of reconcileRaster when the inherit phase succeeds. -/
theorem reconcileRaster_ok_eq (st : GeoState) (r : Raster) (r3 : Raster)
    (hih : inheritGeoref st r = .ok r3) :
    reconcileRaster st r =
      if ! (r3.crs.isSome && ! r3.transform.isIdentity) then
        .error (.noGeoref r3.name)
      else .ok (recordRef st r3, r3) := by
  unfold reconcileRaster
  rw [hih]

/-- Successful reconciliation from a state whose size field is recorded
whenever its transform field is always yields a state with a recorded
size. -/
theorem reconcile_records_size (st : GeoState) (r : Raster)
    (st2 : GeoState) (r2 : Raster)
    (hwf : st.refTransform.isSome = true → st.refSize.isSome = true)
    (hrec : reconcileRaster st r = .ok (st2, r2)) :
    st2.refSize.isSome = true := by
  rcases hih : inheritGeoref st r with e | r3
  · rw [reconcileRaster] at hrec
    rw [hih] at hrec
    exact absurd hrec (by simp)
  · rw [reconcileRaster_ok_eq st r r3 hih] at hrec
    by_cases hb : (r3.crs.isSome && ! r3.transform.isIdentity) = true
    · rw [if_neg (by rw [hb]; simp)] at hrec
      injection hrec with h
      have hst2 := congrArg Prod.fst h
      simp only [] at hst2
      rw [← hst2]
      unfold recordRef
      rcases hrt : st.refTransform with _ | t
      · rw [if_pos]
        · rfl
        · simp only [Option.isNone_none, Bool.true_and]
          exact hb
      · rw [if_neg]
        · exact hwf (by rw [hrt]; rfl)
        · simp
    · rw [Bool.not_eq_true] at hb
      rw [if_pos (by rw [hb]; rfl)] at hrec
      exact absurd hrec (by simp)

/-- C4 amended: the reference established during reconciliation is never
recaptured after reprojection (the recapture branch fires only when
ref_size is None, which cannot hold after a successful reconciliation from
a state whose size accompanies its transform), so the stored reference
keeps the pre-reprojection geometry of the raster that established it. -/
theorem c4_reference_not_recaptured (warp : Raster → Raster)
    (st : GeoState) (r : Raster) (st2 : GeoState) (r2 : Raster)
    (hwf : st.refTransform.isSome = true → st.refSize.isSome = true)
    (hrec : reconcileRaster st r = .ok (st2, r2)) :
    processRaster warp st r = .ok (st2, (reprojectRaster warp st2 r2).2) := by
  have hsz := reconcile_records_size st r st2 r2 hwf hrec
  have hfst := reproject_preserves_recorded_ref warp st2 r2 hsz
  have hpair2 : reprojectRaster warp st2 r2
      = (st2, (reprojectRaster warp st2 r2).2) := Prod.ext hfst rfl
  unfold processRaster
  rw [hrec]
  show Except.ok (reprojectRaster warp st2 r2)
      = Except.ok (st2, (reprojectRaster warp st2 r2).2)
  exact congrArg Except.ok hpair2

/-- C4 witness for the amended claim: a georeferenced EPSG:4326 raster is
reprojected by a warp that changes its geometry, and the final reference
state is exactly the state captured before reprojection. -/
theorem c4_reference_not_recaptured_witness :
    processRaster
      (fun r => Raster.mk r.name (some (CRS.epsg 2100))
        (Affine.mk 30 0 500000 0 (-30) 4200000) 8 8)
      initState
      (Raster.mk "vel2.tif" (some (CRS.epsg 4326)) (Affine.mk 1 0 0 0 (-1) 0) 10 10)
    = .ok (GeoState.mk (some (Affine.mk 1 0 0 0 (-1) 0)) (some (CRS.epsg 4326))
             (some (10, 10)),
           (reprojectRaster
             (fun r => Raster.mk r.name (some (CRS.epsg 2100))
               (Affine.mk 30 0 500000 0 (-30) 4200000) 8 8)
             (GeoState.mk (some (Affine.mk 1 0 0 0 (-1) 0)) (some (CRS.epsg 4326))
               (some (10, 10)))
             (Raster.mk "vel2.tif" (some (CRS.epsg 4326))
               (Affine.mk 1 0 0 0 (-1) 0) 10 10)).2) :=
  c4_reference_not_recaptured
    (fun r => Raster.mk r.name (some (CRS.epsg 2100))
      (Affine.mk 30 0 500000 0 (-30) 4200000) 8 8)
    initState
    (Raster.mk "vel2.tif" (some (CRS.epsg 4326)) (Affine.mk 1 0 0 0 (-1) 0) 10 10)
    (GeoState.mk (some (Affine.mk 1 0 0 0 (-1) 0)) (some (CRS.epsg 4326))
      (some (10, 10)))
    (Raster.mk "vel2.tif" (some (CRS.epsg 4326)) (Affine.mk 1 0 0 0 (-1) 0) 10 10)
    (by decide) (by decide)

/-! ### Claim C5 -/

/-- C5 counterexample: a raster missing georeferencing processed while no
reference exists is a fatal error, but the raised error names only the
offending asset and carries no expected pixel size, refuting the claim
that the diagnostic names the expected size in this case as well. -/
theorem c5_counterexample :
    reconcileRaster initState (Raster.mk "ungeoreferenced.tif" none identityAffine 4 4)
      = .error (.noGeoref "ungeoreferenced.tif")
    ∧ RasterError.mentionsExpectedSize (.noGeoref "ungeoreferenced.tif") = false := by
  exact ⟨by decide, by decide⟩

/-- C5 amended: a raster missing CRS or transform is always a fatal error
when no size-compatible reference is available; when a reference exists
with a different pixel size the error names the offending asset, the
expected size and the actual size, and when the reference is not fully
recorded the error names only the offending asset. -/
theorem c5_missing_georef_errors (st : GeoState) (r : Raster)
    (hmiss : (r.crs.isSome && ! r.transform.isIdentity) = false) :
    (∀ t c sz, st = GeoState.mk (some t) (some c) (some sz) →
      ¬ (r.width, r.height) = sz →
      reconcileRaster st r = .error (.sizeMismatch r.name sz (r.width, r.height)))
    ∧ ((st.refTransform = none ∨ st.refCrs = none ∨ st.refSize = none) →
      reconcileRaster st r = .error (.noGeoref r.name)) := by
  constructor
  · intro t c sz hst hsz
    subst hst
    simp [reconcileRaster, inheritGeoref, hmiss, hsz]
  · intro hpart
    have hih : inheritGeoref st r = .ok r := by
      unfold inheritGeoref
      rw [hmiss]
      simp only [Bool.false_eq_true, if_false]
      obtain ⟨rt, rc, rs⟩ := st
      rcases hpart with h | h | h <;> simp only [] at h <;> subst h
      · rfl
      · rcases rt with _ | t
        · rfl
        · rfl
      · rcases rt with _ | t
        · rfl
        · rcases rc with _ | c
          · rfl
          · rfl
    rw [reconcileRaster_ok_eq st r r hih, if_pos]
    rw [hmiss]
    rfl

/-- C5 witness for the amended claim: a size mismatch against a recorded
2 by 2 reference and a missing reference both abort. -/
theorem c5_missing_georef_errors_witness :
    reconcileRaster
      (GeoState.mk (some (Affine.mk 2 0 0 0 (-2) 0)) (some (CRS.epsg 2100))
        (some (2, 2)))
      (Raster.mk "c.tif" none identityAffine 4 4)
      = .error (.sizeMismatch "c.tif" (2, 2) (4, 4))
    ∧ reconcileRaster initState (Raster.mk "d.tif" none identityAffine 4 4)
      = .error (.noGeoref "d.tif") :=
  ⟨(c5_missing_georef_errors
      (GeoState.mk (some (Affine.mk 2 0 0 0 (-2) 0)) (some (CRS.epsg 2100))
        (some (2, 2)))
      (Raster.mk "c.tif" none identityAffine 4 4) (by decide)).1
      (Affine.mk 2 0 0 0 (-2) 0) (CRS.epsg 2100) (2, 2) rfl (by decide),
   (c5_missing_georef_errors initState
      (Raster.mk "d.tif" none identityAffine 4 4) (by decide)).2
      (Or.inl rfl)⟩

/-! ### Claim C7 -/

/-- Modelled from the spec wording of the bbox union: independent per-axis
min of mins and max of maxes over the later assets, seeded by the first
asset. -/
def unionSpecBBox (b : BBox4) (bs : List BBox4) : BBox4 :=
  BBox4.mk ((bs.map BBox4.minx).foldl min b.minx)
    ((bs.map BBox4.miny).foldl min b.miny)
    ((bs.map BBox4.maxx).foldl max b.maxx)
    ((bs.map BBox4.maxy).foldl max b.maxy)

/-- The running union started from a seed equals the per-axis fold. -/
theorem bboxUnion_from_seed (bs : List BBox4) :
    ∀ b : BBox4, bs.foldl bboxUnionStep (some b) = some (unionSpecBBox b bs) := by
  induction bs with
  | nil => intro b; simp [unionSpecBBox]
  | cons wb bs ih =>
    intro b
    rw [List.foldl_cons]
    show bs.foldl bboxUnionStep
      (some (BBox4.mk (min b.minx wb.minx) (min b.miny wb.miny)
        (max b.maxx wb.maxx) (max b.maxy wb.maxy))) = _
    rw [ih]
    simp [unionSpecBBox]

/-- C7: the item bbox over a non-empty asset list is the per-axis running
union seeded by the first asset; the geometry is the closed axis-aligned
polygon of the box in (longitude, latitude) order with first vertex equal
to last; the centroid is the per-axis midpoint; and the concrete example
with bounds [0,0,1,1] and [2,2,3,3] yields bbox [0,0,3,3] with centroid
(1.5, 1.5). -/
theorem c7_bbox_union_geometry_centroid :
    (∀ (b : BBox4) (bs : List BBox4),
      bboxUnion (b :: bs) = some (unionSpecBBox b bs))
    ∧ (∀ bb : BBox4,
      geometryCoords bb =
        [(bb.minx, bb.miny), (bb.minx, bb.maxy), (bb.maxx, bb.maxy),
         (bb.maxx, bb.miny), (bb.minx, bb.miny)]
      ∧ (geometryCoords bb).head? = (geometryCoords bb).getLast?
      ∧ projCentroid bb = ((bb.miny + bb.maxy) / 2, (bb.minx + bb.maxx) / 2))
    ∧ bboxUnion [BBox4.mk 0 0 1 1, BBox4.mk 2 2 3 3] = some (BBox4.mk 0 0 3 3)
    ∧ projCentroid (BBox4.mk 0 0 3 3) = (3 / 2, 3 / 2) := by
  refine ⟨?_, ?_, by decide, by norm_num [projCentroid]⟩
  · intro b bs
    unfold bboxUnion
    rw [List.foldl_cons]
    exact bboxUnion_from_seed bs b
  · intro bb
    exact ⟨rfl, rfl, rfl⟩

/-! ### Claim C6 -/

/-- The counter a single file name contributes for a service UID: split
the extension, require a JSON extension, match the stem, require the
service UID group. -/
def fileCounterOf (svc : List Char) (name : List Char) : Option Nat :=
  let be := splitext name
  if extIsJson be.2 then
    match idCounterMatch be.1 with
    | some (s, _, ctr) => if s = svc then some (digitsToNat ctr) else none
    | none => none
  else none

/-- The counter a single directory name contributes for a service UID. -/
def dirCounterOf (svc : List Char) (d : List Char) : Option Nat :=
  match idCounterMatch d with
  | some (s, _, ctr) => if s = svc then some (digitsToNat ctr) else none
  | none => none

/-- Every counter extracted from the catalog tree for a service UID, in
scan order. -/
def extractedCounters (files dirs : List (List Char)) (svc : List Char) :
    List Nat :=
  files.filterMap (fileCounterOf svc) ++ dirs.filterMap (dirCounterOf svc)

theorem fileCounterStep_eq (svc : List Char) (acc : Nat) (x : List Char) :
    fileCounterStep svc acc x
      = match fileCounterOf svc x with
        | some m => max acc m
        | none => acc := by
  unfold fileCounterStep fileCounterOf
  by_cases he : extIsJson (splitext x).2 = true
  · rcases hm : idCounterMatch (splitext x).1 with _ | ⟨s, p⟩
    · simp [he, hm]
    · by_cases hs : s = svc
      · simp [he, hm, hs]
      · simp [he, hm, hs]
  · simp [he]

theorem dirCounterStep_eq (svc : List Char) (acc : Nat) (x : List Char) :
    dirCounterStep svc acc x
      = match dirCounterOf svc x with
        | some m => max acc m
        | none => acc := by
  unfold dirCounterStep dirCounterOf
  rcases hm : idCounterMatch x with _ | ⟨s, p⟩
  · simp
  · by_cases hs : s = svc
    · simp [hs]
    · simp [hs]

/-- A running-maximum fold equals the maximum of the extracted values. -/
theorem foldl_max_filterMap {α : Type} (f : α → Option Nat) (g : Nat → α → Nat)
    (hg : ∀ acc x, g acc x = match f x with | some m => max acc m | none => acc) :
    ∀ (l : List α) (a : Nat),
      l.foldl g a = max a ((l.filterMap f).foldr max 0) := by
  intro l
  induction l with
  | nil => intro a; simp
  | cons x xs ih =>
    intro a
    rcases hfx : f x with _ | m
    · rw [List.foldl_cons, ih, hg, hfx, List.filterMap_cons, hfx]
    · rw [List.foldl_cons, ih, hg, hfx, List.filterMap_cons, hfx, List.foldr_cons]
      exact Nat.max_assoc a m _

/-- Folding max from an arbitrary start value. -/
theorem foldr_max_init (l : List Nat) :
    ∀ b : Nat, l.foldr max b = max (l.foldr max 0) b := by
  induction l with
  | nil => intro b; simp
  | cons x xs ih =>
    intro b
    rw [List.foldr_cons, ih b, List.foldr_cons]
    exact (Nat.max_assoc x _ b).symm

/-- next_counter_for_service returns one more than the maximum extracted
counter (zero when none is extracted). -/
theorem next_counter_eq (files dirs : List (List Char)) (svc : List Char) :
    next_counter_for_service files dirs svc
      = (extractedCounters files dirs svc).foldr max 0 + 1 := by
  simp only [next_counter_for_service, extractedCounters]
  rw [foldl_max_filterMap (fileCounterOf svc) (fileCounterStep svc)
    (fileCounterStep_eq svc) files 0]
  rw [foldl_max_filterMap (dirCounterOf svc) (dirCounterStep svc)
    (dirCounterStep_eq svc) dirs]
  rw [List.foldr_append,
    foldr_max_init (files.filterMap (fileCounterOf svc))
      ((dirs.filterMap (dirCounterOf svc)).foldr max 0),
    Nat.zero_max]

/-- C6: next_counter_for_service equals one plus the maximum counter
suffix extracted for the service UID from the JSON file names and the
directory names (one when none is found); it is total, so malformed names
are skipped and never raise; on an empty catalog it returns 1; and for
prior items with counters 1, 2, 5 for LS-DF-SB-S1 next to an unrelated
counter 42 for XX-YY and assorted malformed names it returns 6. -/
theorem c6_next_counter_scan :
    (∀ (files dirs : List (List Char)) (svc : List Char),
      next_counter_for_service files dirs svc
        = (extractedCounters files dirs svc).foldr max 0 + 1)
    ∧ (∀ svc : List Char, next_counter_for_service [] [] svc = 1)
    ∧ next_counter_for_service
        [ "LS-DF-SB-S1_20250101T080000000_000001.json".toList,
          "LS-DF-SB-S1_20250102T080000000_000002.json".toList,
          "LS-DF-SB-S1_20250103T080000000_000005.json".toList,
          "XX-YY_20250101T080000000_000042.json".toList,
          "LS-DF-SB-S1_20250101T080000000_000003.txt".toList,
          "notes.json".toList ]
        [ "LS-DF-SB-S1_20250101".toList,
          "LS-DF-SB-S1_20250104T080000000_000004".toList ]
        "LS-DF-SB-S1".toList = 6 := by
  refine ⟨next_counter_eq, fun svc => rfl, by decide⟩

/-! ### Claim C8 -/

/-- An all-masked band degrades to the all-zero band of the same pixel
count. -/
theorem processBand_all_masked (nd : ℚ) (band : List ℚ)
    (h : ∀ x ∈ band, x = nd) :
    processBand (some nd) band = band.map (fun _ => 0) := by
  have hval : band.filter (fun x => ! decide (x = nd)) = [] := by
    rw [List.filter_eq_nil_iff]
    intro a ha
    simp [h a ha]
  unfold processBand
  simp only [hval]
  rfl

/-- C8: band-count handling maps one band to three copies, keeps the
first three of three or more, pads exactly two with a duplicate of the
first; an all-masked band degrades to all zeros; and a constant-nodata
single-band raster yields an all-zero thumbnail of the configured square
size without an error, for every resampler that maps an all-zero image to
the all-zero image of the requested size. -/
theorem c8_thumbnail_bands :
    (∀ b : List ℚ, selectBands [b] = .ok (b, b, b))
    ∧ (∀ b1 b2 : List ℚ, selectBands [b1, b2] = .ok (b1, b2, b1))
    ∧ (∀ (b1 b2 b3 : List ℚ) (rest : List (List ℚ)),
        selectBands (b1 :: b2 :: b3 :: rest) = .ok (b1, b2, b3))
    ∧ selectBands ([] : List (List ℚ)) = .error "No bands found to build thumbnail"
    ∧ (∀ (nd : ℚ) (band : List ℚ), (∀ x ∈ band, x = nd) →
        processBand (some nd) band = band.map (fun _ => 0))
    ∧ (∀ (resize : Nat → List (Nat × Nat × Nat) → List (Nat × Nat × Nat))
        (size : Nat) (v : ℚ) (n : Nat),
        (∀ m : Nat, resize size (List.replicate m (0, 0, 0))
          = List.replicate (size * size) (0, 0, 0)) →
        _write_thumbnail_from_raster resize size (some v) [List.replicate n v]
          = .ok (List.replicate (size * size) (0, 0, 0))) := by
  refine ⟨fun b => rfl, fun b1 b2 => rfl, fun b1 b2 b3 rest => rfl, rfl,
    processBand_all_masked, ?_⟩
  intro resize size v n hres
  have hband : processBand (some v) (List.replicate n v)
      = List.replicate n (0 : Nat) := by
    rw [processBand_all_masked v _ (fun x hx => List.eq_of_mem_replicate hx)]
    simp [List.map_replicate]
  unfold _write_thumbnail_from_raster
  show Except.ok (resize size ((processBand (some v) (List.replicate n v)).zip
    ((processBand (some v) (List.replicate n v)).zip
      (processBand (some v) (List.replicate n v))) |>.map
        (fun p => (p.1, p.2.1, p.2.2)))) = _
  rw [hband]
  rw [List.zip_replicate, List.zip_replicate]
  simp only [Nat.min_self, List.map_replicate]
  rw [hres n]

/-- C8 witness: a two-pixel constant-nodata band degrades to zeros, and a
constant-nodata single-band raster yields the all-zero thumbnail at the
configured size 255 for a concrete resampler. -/
theorem c8_thumbnail_bands_witness :
    processBand (some 7) [7, 7] = [0, 0]
    ∧ _write_thumbnail_from_raster
        (fun s _ => List.replicate (s * s) (0, 0, 0)) 255
        (some (-9999)) [List.replicate 4 (-9999)]
        = .ok (List.replicate (255 * 255) (0, 0, 0)) :=
  ⟨c8_thumbnail_bands.2.2.2.2.1 7 [7, 7] (by decide),
   c8_thumbnail_bands.2.2.2.2.2
     (fun s _ => List.replicate (s * s) (0, 0, 0)) 255 (-9999) 4
     (fun m => rfl)⟩

/-! ### Claim C10 -/

theorem isDigitCh_digitCh {n : Nat} (h : n < 10) : isDigitCh (digitCh n) = true := by
  interval_cases n <;> decide

theorem natToDigits_ne_nil (n : Nat) : natToDigits n ≠ [] := by
  unfold natToDigits natToDigitsFuel
  split
  · simp
  · simp

theorem natToDigitsFuel_all_digit :
    ∀ fuel n : Nat, (natToDigitsFuel fuel n).all isDigitCh = true := by
  intro fuel
  induction fuel with
  | zero => intro n; rfl
  | succ f ih =>
    intro n
    unfold natToDigitsFuel
    split
    · rename_i hn
      simp [isDigitCh_digitCh hn]
    · rename_i hn
      rw [List.all_append]
      have hm : n % 10 < 10 := Nat.mod_lt n (by omega)
      simp [ih, isDigitCh_digitCh hm]

theorem natToDigits_all_digit (n : Nat) :
    (natToDigits n).all isDigitCh = true :=
  natToDigitsFuel_all_digit (n + 1) n

theorem natToDigitsFuel_length_le :
    ∀ fuel n k : Nat, n < fuel → n < 10 ^ k → 1 ≤ k →
      (natToDigitsFuel fuel n).length ≤ k := by
  intro fuel
  induction fuel with
  | zero => intro n k h1 h2 h3; omega
  | succ f ih =>
    intro n k hnf hnk hk
    unfold natToDigitsFuel
    split
    · simpa using hk
    · rename_i hn10
      have hn10' : 10 ≤ n := by omega
      have hk2 : 2 ≤ k := by
        by_contra hc
        have hk1 : k = 1 := by omega
        subst hk1
        norm_num at hnk
        omega
      have hpow : 10 ^ k = 10 ^ (k - 1) * 10 := by
        conv_lhs => rw [show k = (k - 1) + 1 from by omega]
        rw [pow_succ]
      have hdiv : n / 10 < 10 ^ (k - 1) := by
        rw [hpow] at hnk
        omega
      have hrecf : n / 10 < f := by omega
      have hrec := ih (n / 10) (k - 1) hrecf hdiv (by omega)
      rw [List.length_append, List.length_singleton]
      omega

theorem natToDigits_length_le {n k : Nat} (h : n < 10 ^ k) (hk : 1 ≤ k) :
    (natToDigits n).length ≤ k :=
  natToDigitsFuel_length_le (n + 1) n k (Nat.lt_succ_self n) h hk

theorem padNum_length (k n : Nat) (h : (natToDigits n).length ≤ k) :
    (padNum k n).length = k := by
  unfold padNum
  rw [List.length_append, List.length_replicate]
  omega

theorem padNum_length_pos (k n : Nat) : 0 < (padNum k n).length := by
  unfold padNum
  rw [List.length_append]
  have h := List.length_pos.mpr (natToDigits_ne_nil n)
  omega

theorem padNum_head_digit (k n : Nat) :
    ∃ c, (padNum k n)[0]? = some c ∧ isDigitCh c = true := by
  unfold padNum
  rcases hm : k - (natToDigits n).length with _ | m
  · rcases hd : natToDigits n with _ | ⟨c, rest⟩
    · exact absurd hd (natToDigits_ne_nil n)
    · refine ⟨c, by simp, ?_⟩
      have hall := natToDigits_all_digit n
      rw [hd] at hall
      rw [List.all_cons, Bool.and_eq_true] at hall
      exact hall.1
  · refine ⟨'0', ?_, by decide⟩
    rw [List.replicate_succ, List.cons_append, List.getElem?_cons_zero]

/-- Field bounds every datetime object satisfies (Python datetime has year
at most 9999, two-digit month, day, hour, minute and second, and
microseconds below one million). -/
def DateTimeQ.fieldBounds (t : DateTimeQ) : Prop :=
  t.year < 10000 ∧ t.month < 100 ∧ t.day < 100 ∧ t.hour < 100
    ∧ t.minute < 100 ∧ t.second < 100 ∧ t.microsecond < 1000000

theorem utc_timestamp_millis_length {t : DateTimeQ} (hb : t.fieldBounds) :
    (utc_timestamp_millis t).length = 19 := by
  obtain ⟨hy, hmo, hd, hh, hmi, hs, hus⟩ := hb
  have e4 : (10 : Nat) ^ 4 = 10000 := by norm_num
  have e2 : (10 : Nat) ^ 2 = 100 := by norm_num
  have e3 : (10 : Nat) ^ 3 = 1000 := by norm_num
  have l1 : (padNum 4 t.year).length = 4 :=
    padNum_length _ _ (natToDigits_length_le (by rw [e4]; exact hy) (by omega))
  have l2 : (padNum 2 t.month).length = 2 :=
    padNum_length _ _ (natToDigits_length_le (by rw [e2]; exact hmo) (by omega))
  have l3 : (padNum 2 t.day).length = 2 :=
    padNum_length _ _ (natToDigits_length_le (by rw [e2]; exact hd) (by omega))
  have l4 : (padNum 2 t.hour).length = 2 :=
    padNum_length _ _ (natToDigits_length_le (by rw [e2]; exact hh) (by omega))
  have l5 : (padNum 2 t.minute).length = 2 :=
    padNum_length _ _ (natToDigits_length_le (by rw [e2]; exact hmi) (by omega))
  have l6 : (padNum 2 t.second).length = 2 :=
    padNum_length _ _ (natToDigits_length_le (by rw [e2]; exact hs) (by omega))
  have lm : (padNum 3 (t.microsecond / 1000)).length = 3 :=
    padNum_length _ _ (natToDigits_length_le (by rw [e3]; omega) (by omega))
  unfold utc_timestamp_millis
  simp [List.length_append, l1, l2, l3, l4, l5, l6, lm]

theorem utc_timestamp_millis_head (t : DateTimeQ) :
    ∃ c, (utc_timestamp_millis t)[0]? = some c ∧ isDigitCh c = true := by
  obtain ⟨c, hc, hdig⟩ := padNum_head_digit 4 t.year
  refine ⟨c, ?_, hdig⟩
  unfold utc_timestamp_millis
  rw [List.getElem?_append_left (padNum_length_pos 4 t.year)]
  exact hc

/-- A name generated as service UID, separator, hub timestamp (with its
literal d before the milliseconds), separator and 6-digit counter never
matches ID_COUNTER_PATTERN: the pattern requires a digit run where the
generated timestamp places its d separator, and here already the position
the pattern reserves for the underscore before its 18-character timestamp
group holds the leading year digit. -/
theorem genName_no_counter_match (svc : List Char) (t : DateTimeQ) (n : Nat)
    (hb : t.fieldBounds) (hn : n < 1000000) :
    idCounterMatch
      (svc ++ '_' :: (utc_timestamp_millis t ++ '_' :: format_counter n))
      = none := by
  obtain ⟨c, hc0, hdig⟩ := utc_timestamp_millis_head t
  have hts : (utc_timestamp_millis t).length = 19 := utc_timestamp_millis_length hb
  have e6 : (10 : Nat) ^ 6 = 1000000 := by norm_num
  have hctr : (format_counter n).length = 6 := by
    unfold format_counter
    exact padNum_length _ _ (natToDigits_length_le (by rw [e6]; exact hn) (by omega))
  have hsl : (svc ++ '_' :: (utc_timestamp_millis t ++ '_' :: format_counter n)).length
      = svc.length + 27 := by
    simp [hts, hctr]
  unfold idCounterMatch
  split
  case isTrue hcnd =>
    exfalso
    obtain ⟨h27, hund, -⟩ := hcnd
    rw [getElem?_append_cons_right _ _ _ _ (by omega)] at hund
    have h0 : (svc ++ '_' :: (utc_timestamp_millis t ++ '_' :: format_counter n)).length
        - 26 - (svc.length + 1) = 0 := by omega
    rw [h0, List.getElem?_append_left (by omega), hc0] at hund
    exact isDigitCh_ne_underscore hdig (Option.some.inj hund)
  case isFalse => rfl

theorem lastDot_json_reverse (l : List Char) :
    lastDotFromEnd ('n' :: 'o' :: 's' :: 'j' :: '.' :: l) = some 4 := by
  simp [lastDotFromEnd]

/-- os.path.splitext on a generated name followed by .json: the last dot
of the whole name is the appended one (json contains no dot), and the stem
contains a non-dot character, so the split point is exactly the appended
dot. -/
theorem splitext_append_json (base : List Char)
    (hany : base.any (fun c => ! c = '.') = true) :
    splitext (base ++ ".json".toList) = (base, ".json".toList) := by
  have hrev : (base ++ ".json".toList).reverse
      = 'n' :: 'o' :: 's' :: 'j' :: '.' :: base.reverse := by
    rw [List.reverse_append]
    rfl
  have hlen : (base ++ ".json".toList).length = base.length + 5 := by simp
  have hi : (base ++ ".json".toList).length - 1 - 4 = base.length := by omega
  unfold splitext
  rw [hrev, lastDot_json_reverse]
  simp only [hi]
  rw [if_pos]
  · rw [List.take_left, List.drop_left]
  · rw [List.take_left]
    exact hany

theorem fileCounterOf_gen_none (svcq svc : List Char) (t : DateTimeQ)
    (n : Nat) (hb : t.fieldBounds) (hn : n < 1000000) :
    fileCounterOf svcq
      ((svc ++ '_' :: (utc_timestamp_millis t ++ '_' :: format_counter n))
        ++ ".json".toList) = none := by
  have hany : (svc ++ '_' :: (utc_timestamp_millis t ++ '_' :: format_counter n)).any
      (fun c => ! c = '.') = true := by
    apply List.any_eq_true.mpr
    refine ⟨'_', List.mem_append_right _ (List.mem_cons_self _ _), by decide⟩
  simp only [fileCounterOf, splitext_append_json _ hany]
  rw [genName_no_counter_match svc t n hb hn]
  rfl

theorem dirCounterOf_gen_none (svcq svc : List Char) (t : DateTimeQ)
    (n : Nat) (hb : t.fieldBounds) (hn : n < 1000000) :
    dirCounterOf svcq
      (svc ++ '_' :: (utc_timestamp_millis t ++ '_' :: format_counter n))
      = none := by
  unfold dirCounterOf
  rw [genName_no_counter_match svc t n hb hn]

/-- C10: the generated item name service UID plus underscore plus
utc_timestamp_millis plus underscore plus format_counter never matches
ID_COUNTER_PATTERN (the generator places the literal d separator inside
the timestamp while the pattern wants contiguous digits there), so
next_counter_for_service over a catalog holding only such names (as JSON
files or as directories) returns 1 whatever counters they carry. -/
theorem c10_generated_ids_invisible_to_counter_scan :
    (∀ (svc : List Char) (t : DateTimeQ) (n : Nat),
      t.fieldBounds → n < 1000000 →
      idCounterMatch
        (svc ++ '_' :: (utc_timestamp_millis t ++ '_' :: format_counter n))
        = none)
    ∧ (∀ (files dirs : List (List Char)) (svcq : List Char),
      (∀ f ∈ files, ∃ svc t n, DateTimeQ.fieldBounds t ∧ n < 1000000 ∧
        f = (svc ++ '_' :: (utc_timestamp_millis t ++ '_' :: format_counter n))
          ++ ".json".toList) →
      (∀ d ∈ dirs, ∃ svc t n, DateTimeQ.fieldBounds t ∧ n < 1000000 ∧
        d = svc ++ '_' :: (utc_timestamp_millis t ++ '_' :: format_counter n)) →
      next_counter_for_service files dirs svcq = 1) := by
  constructor
  · intro svc t n hb hn
    exact genName_no_counter_match svc t n hb hn
  · intro files dirs svcq hf hd
    rw [next_counter_eq]
    have hfe : files.filterMap (fileCounterOf svcq) = [] := by
      rw [List.filterMap_eq_nil_iff]
      intro f hmem
      obtain ⟨svc, t, n, hb, hn, hfeq⟩ := hf f hmem
      rw [hfeq]
      exact fileCounterOf_gen_none svcq svc t n hb hn
    have hde : dirs.filterMap (dirCounterOf svcq) = [] := by
      rw [List.filterMap_eq_nil_iff]
      intro d hmem
      obtain ⟨svc, t, n, hb, hn, hdeq⟩ := hd d hmem
      rw [hdeq]
      exact dirCounterOf_gen_none svcq svc t n hb hn
    rw [extractedCounters, hfe, hde]
    rfl

/-- C10 witness at a concrete service UID, datetime and counter. -/
theorem c10_generated_ids_witness :
    idCounterMatch ("LS-DF-SB-S1".toList ++ '_' ::
      (utc_timestamp_millis ⟨2025, 12, 17, 14, 43, 38, 86000⟩ ++ '_' ::
        format_counter 1)) = none
    ∧ next_counter_for_service
        [("LS-DF-SB-S1".toList ++ '_' ::
          (utc_timestamp_millis ⟨2025, 12, 17, 14, 43, 38, 86000⟩ ++ '_' ::
            format_counter 1)) ++ ".json".toList]
        ["LS-DF-SB-S1".toList ++ '_' ::
          (utc_timestamp_millis ⟨2025, 12, 17, 14, 43, 38, 86000⟩ ++ '_' ::
            format_counter 5)]
        "LS-DF-SB-S1".toList = 1 :=
  ⟨c10_generated_ids_invisible_to_counter_scan.1 "LS-DF-SB-S1".toList
      ⟨2025, 12, 17, 14, 43, 38, 86000⟩ 1
      ⟨by norm_num, by norm_num, by norm_num, by norm_num, by norm_num,
        by norm_num, by norm_num⟩ (by norm_num),
   c10_generated_ids_invisible_to_counter_scan.2 _ _ "LS-DF-SB-S1".toList
     (by
       intro f hmem
       rw [List.mem_singleton] at hmem
       exact ⟨"LS-DF-SB-S1".toList, ⟨2025, 12, 17, 14, 43, 38, 86000⟩, 1,
         ⟨by norm_num, by norm_num, by norm_num, by norm_num, by norm_num,
           by norm_num, by norm_num⟩, by norm_num, hmem⟩)
     (by
       intro d hmem
       rw [List.mem_singleton] at hmem
       exact ⟨"LS-DF-SB-S1".toList, ⟨2025, 12, 17, 14, 43, 38, 86000⟩, 5,
         ⟨by norm_num, by norm_num, by norm_num, by norm_num, by norm_num,
           by norm_num, by norm_num⟩, by norm_num, hmem⟩)⟩
